import Mathlib

/-!
# Chatspace (MERN) — verification of the session / messaging layer

Shallow embedding of the backend of the Chatspace chat application:
token issuing (`backend/lib/util.js`, both revisions), the refresh-token
rotation endpoint (`backend/controllers/user-controllers.js`), the HTTP
authentication middleware (`backend/middlewares/auth.js`, the two revisions
present in the sources), the Socket.IO presence map (`backend/server.js`),
and the message controllers (`backend/controllers/message-controllers.js`)
over the Mongoose models (`backend/models/*.js`).

Conventions of the embedding:
* JSON web tokens are idealised: `jwt.sign` produces a record of the payload
  (`{ id }`), the signing secret, the issue time and the expiry time, and
  `jwt.verify` succeeds exactly when the secret used for verification equals
  the signing secret and the token is unexpired.  Two signed tokens are equal
  as strings exactly when all four components agree, which is the standard
  ideal-MAC reading of HMAC-signed JWTs.
* The password hash is idealised as an injective tagging function.
* MongoDB collections are lists of documents.  A Mongoose model with the
  default strict schema stores exactly the schema fields, so a message
  document is a record of `senderId`, `receiverId`, optional `text`,
  optional `image` and `seen`; a query filter is a list of
  (field name, value) pairs and matches a document exactly when every
  named field is present on the document with the given value
  (`strictQuery` is false, the Mongoose ≥ 7 default, so filter keys that
  are not schema paths are passed through to MongoDB unchanged).
* JavaScript truthiness of an optional string: `none` and `some ""` are
  falsy.
-/

namespace Chatspace

/-- An idealised signed JWT: `jwt.sign({id}, secret, {expiresIn})` at time
`iat` yields this record, with `exp` the absolute expiry time. -/
structure Jwt where
  id : String
  secret : String
  iat : Nat
  exp : Nat
deriving DecidableEq

/-- Errors a JavaScript statement of the modelled code can throw. -/
inductive JsError where
  /-- `jsonwebtoken`'s `JsonWebTokenError` (bad signature / malformed). -/
  | jsonWebTokenError : JsError
  /-- `jsonwebtoken`'s `TokenExpiredError`. -/
  | tokenExpiredError : JsError
  /-- A plain `TypeError` (e.g. reading a property of `undefined`). -/
  | typeError : JsError
deriving DecidableEq

/-- `jwt.sign({ id }, secret, { expiresIn })` at time `iat`. -/
def jwtSign (id secret : String) (iat exp : Nat) : Jwt :=
  ⟨id, secret, iat, exp⟩

/-- `jwt.verify(token, secret)` at time `now`, in throwing form: a wrong
secret raises `JsonWebTokenError`, a correct signature past expiry raises
`TokenExpiredError`, otherwise the decoded payload `{ id }` is returned. -/
def jwtVerifyE (tok : Jwt) (secret : String) (now : Nat) : Except JsError String :=
  if tok.secret ≠ secret then .error .jsonWebTokenError
  else if tok.exp ≤ now then .error .tokenExpiredError
  else .ok tok.id

/-- `jwt.verify` with the thrown error collapsed to `none` (used where the
surrounding `try/catch` does not distinguish the error kind). -/
def jwtVerify (tok : Jwt) (secret : String) (now : Nat) : Option String :=
  (jwtVerifyE tok secret now).toOption

/-- The recognised environment configuration: the two signing secrets and
the two expiry durations (`backend/lib/util.js` reads
`JWT_SECRET_KEY`, `JWT_REFRESH_SECRET_KEY`, `ACCESS_TOKEN_EXPIRY`,
`REFRESH_TOKEN_EXPIRY`). -/
structure Env where
  jwtSecretKey : String
  jwtRefreshSecretKey : String
  accessTokenExpiry : Nat
  refreshTokenExpiry : Nat
deriving DecidableEq

/-- `generateToken` of `backend/lib/util.js` (current revision, lines 12–21
of the concatenated file; the access-token issuer is identical in both
revisions up to the default expiry string): signs `{ id }` with
`JWT_SECRET_KEY`. -/
def generateToken (env : Env) (id : String) (now : Nat) : Jwt :=
  jwtSign id env.jwtSecretKey now (now + env.accessTokenExpiry)

/-- `generateRefreshToken` of `backend/lib/util.js` (current revision):
signs `{ id }` with `JWT_REFRESH_SECRET_KEY`. -/
def generateRefreshToken (env : Env) (id : String) (now : Nat) : Jwt :=
  jwtSign id env.jwtRefreshSecretKey now (now + env.refreshTokenExpiry)

/-- `generateToken` of the earlier revision of `backend/lib/util.js`
(lines 1–11 of the concatenated file): signs `{ id }` with
`JWT_SECRET_KEY`. -/
def generateTokenV1 (env : Env) (id : String) (now : Nat) : Jwt :=
  jwtSign id env.jwtSecretKey now (now + env.accessTokenExpiry)

/-- `generateRefreshToken` of the earlier revision of `backend/lib/util.js`
(lines 1–11): it signs `{ id }` with `JWT_SECRET_KEY` — the same secret used
for access tokens, not a separate refresh secret. -/
def generateRefreshTokenV1 (env : Env) (id : String) (now : Nat) : Jwt :=
  jwtSign id env.jwtSecretKey now (now + env.refreshTokenExpiry)

/-- A persisted user document (`backend/models/user-model.js`, the revision
with the `refreshToken` path: `fullName`, `email`, `password` (select:
false), `profilePic`, `bio`, `refreshToken` (select: false, default
null)). -/
structure StoredUser where
  id : String
  fullName : String
  email : String
  password : String
  profilePic : String
  bio : String
  refreshToken : Option Jwt
deriving DecidableEq

/-- `User.findById(uid)` over the collection. -/
def findById (db : List StoredUser) (uid : String) : Option StoredUser :=
  db.find? (fun u => u.id = uid)

/-- `User.findOne({ email })` over the collection. -/
def findByEmail (db : List StoredUser) (email : String) : Option StoredUser :=
  db.find? (fun u => u.email = email)

/-- `User.findByIdAndUpdate(uid, { refreshToken: t })` (also the net effect
of assigning `user.refreshToken = t` followed by `user.save()`): a no-op
when no user has id `uid`. -/
def updateRefreshToken (db : List StoredUser) (uid : String) (t : Option Jwt) :
    List StoredUser :=
  db.map (fun u => if u.id = uid then { u with refreshToken := t } else u)

/-- Outcome of the refresh-token endpoint: the collection after the call,
the HTTP status, the `refreshToken` cookie set by the response (if any) and
the access token returned in the body (if any). -/
structure RefreshResult where
  db : List StoredUser
  status : Nat
  cookie : Option Jwt
  token : Option Jwt
deriving DecidableEq

/-- `refreshToken` endpoint of `backend/controllers/user-controllers.js`
(lines 117–159): read the `refreshToken` cookie (401 if absent); verify it
against `JWT_REFRESH_SECRET_KEY` (a thrown verification error reaches the
`catch`, which responds 401); look the user up by the decoded id with
`.select("+refreshToken")`; if the user is missing or the persisted
`refreshToken` differs from the presented one, null the stored token via
`findByIdAndUpdate` and respond 401; otherwise issue a new access token and
a new refresh token, persist the new refresh token, set it as the cookie
and respond 200. -/
def refreshTokenEndpoint (env : Env) (db : List StoredUser)
    (cookie : Option Jwt) (now : Nat) : RefreshResult :=
  match cookie with
  | none => ⟨db, 401, none, none⟩
  | some rt =>
    match jwtVerify rt env.jwtRefreshSecretKey now with
    | none => ⟨db, 401, none, none⟩
    | some uid =>
      match findById db uid with
      | none => ⟨updateRefreshToken db uid none, 401, none, none⟩
      | some user =>
        if user.refreshToken ≠ some rt then
          ⟨updateRefreshToken db uid none, 401, none, none⟩
        else
          let newAccessToken := generateToken env user.id now
          let newRefreshToken := generateRefreshToken env user.id now
          ⟨updateRefreshToken db user.id (some newRefreshToken), 200,
            some newRefreshToken, some newAccessToken⟩

/-- Idealised `bcrypt.hash(password, salt)`: an injective tagging of the
plaintext (an ideal collision-free hash; the salt is elided since the model
only needs that the stored value is the hash of the plaintext). -/
def bcryptHash (password : String) : String :=
  "$2b$10$" ++ password

/-- `bcrypt.compare(password, hash)` against the ideal hash. -/
def bcryptCompare (password hash : String) : Bool :=
  bcryptHash password = hash

/-- A value in a serialised JSON response body. -/
inductive RespVal where
  | str : String → RespVal
  | jwtVal : Jwt → RespVal
  | nullVal : RespVal
deriving DecidableEq

/-- Serialisation of a full in-memory user document, as sent by `signup`
(the document returned by `User.create` carries every assigned path,
including `password` and — after the `newUser.refreshToken = refreshToken`
assignment — `refreshToken`). -/
def serializeFullUser (u : StoredUser) : List (String × RespVal) :=
  [("_id", .str u.id), ("fullName", .str u.fullName), ("email", .str u.email),
   ("password", .str u.password), ("profilePic", .str u.profilePic),
   ("bio", .str u.bio),
   ("refreshToken", match u.refreshToken with
                    | some t => .jwtVal t
                    | none => .nullVal)]

/-- `user.toObject()` for a user fetched by
`User.findOne({ email }).select("+password")`: the default-selected paths
plus `password`; `refreshToken` has `select: false` and was not asked for,
so it is absent from the fetched document. -/
def toObjectWithPassword (u : StoredUser) : List (String × RespVal) :=
  [("_id", .str u.id), ("fullName", .str u.fullName), ("email", .str u.email),
   ("password", .str u.password), ("profilePic", .str u.profilePic),
   ("bio", .str u.bio)]

/-- Outcome of an auth endpoint that answers with a user payload: the
collection afterwards, the HTTP status, the cookie set (if any), the access
token in the body (if any) and the serialised `userData` (if any). -/
structure AuthResponse where
  db : List StoredUser
  status : Nat
  cookie : Option Jwt
  token : Option Jwt
  userData : Option (List (String × RespVal))
deriving DecidableEq

/-- The request body of `POST /auth/signup`; `none` models an absent field,
and JavaScript falsiness makes `some ""` equivalent to absent for the
required-field check. -/
structure SignupReq where
  fullName : Option String
  email : Option String
  password : Option String
  profilePic : Option String
  bio : Option String
deriving DecidableEq

/-- JavaScript truthiness of an optional string. -/
def truthy : Option String → Bool
  | none => false
  | some s => s ≠ ""

/-- `signup` of `backend/controllers/user-controllers.js` (lines 8–37):
400 when `fullName`, `email` or `password` is falsy; 400 when a user with
the email already exists; otherwise hash the password, create the user
(Mongoose fills schema defaults for `profilePic` and `bio` when the path is
`undefined`), issue the two tokens, persist the refresh token on the new
user, set the refresh cookie, and respond 201 with `userData: newUser` —
the full document. `newId` is the identifier MongoDB assigns to the new
document and `now` the current time. -/
def signup (env : Env) (db : List StoredUser) (req : SignupReq)
    (now : Nat) (newId : String) : AuthResponse :=
  if ¬ (truthy req.fullName ∧ truthy req.email ∧ truthy req.password) then
    ⟨db, 400, none, none, none⟩
  else
    match findByEmail db (req.email.getD "") with
    | some _ => ⟨db, 400, none, none, none⟩
    | none =>
      let hashedPassword := bcryptHash (req.password.getD "")
      let accessToken := generateToken env newId now
      let refreshTok := generateRefreshToken env newId now
      let newUser : StoredUser :=
        { id := newId
          fullName := req.fullName.getD ""
          email := req.email.getD ""
          password := hashedPassword
          profilePic := req.profilePic.getD ""
          bio := req.bio.getD "Hey there! I am using Chatspace."
          refreshToken := some refreshTok }
      ⟨db ++ [newUser], 201, some refreshTok, some accessToken,
        some (serializeFullUser newUser)⟩

/-- `login` of `backend/controllers/user-controllers.js` (lines 40–72):
400 when `email` or `password` is falsy; fetch the user by email with
`.select("+password")` (400 if absent); 400 when `bcrypt.compare` fails;
otherwise build `userWithoutPassword` by rest-destructuring
`user.toObject()` minus `password` (before the refresh-token assignment),
issue the two tokens, persist the refresh token, set the cookie, and
respond 200 with `userData: userWithoutPassword`. -/
def login (env : Env) (db : List StoredUser)
    (email password : Option String) (now : Nat) : AuthResponse :=
  if ¬ (truthy email ∧ truthy password) then
    ⟨db, 400, none, none, none⟩
  else
    match findByEmail db (email.getD "") with
    | none => ⟨db, 400, none, none, none⟩
    | some user =>
      if ¬ bcryptCompare (password.getD "") user.password then
        ⟨db, 400, none, none, none⟩
      else
        let userWithoutPassword :=
          (toObjectWithPassword user).filter (fun kv => kv.1 ≠ "password")
        let accessToken := generateToken env user.id now
        let refreshTok := generateRefreshToken env user.id now
        ⟨updateRefreshToken db user.id (some refreshTok), 200,
          some refreshTok, some accessToken, some userWithoutPassword⟩

/-! ## Message model and controllers -/

/-- A persisted message document (`backend/models/message-model.js`): the
schema is strict, so exactly the paths `senderId`, `receiverId`, optional
`text`, optional `image` and `seen` are stored (`_id` is the document
identifier).  An optional path assigned `undefined` is absent from the
stored document (`none`); an assigned empty string is present (`some ""`). -/
structure MsgDoc where
  msgId : String
  senderId : String
  receiverId : String
  text : Option String
  image : Option String
  seen : Bool
deriving DecidableEq

/-- A value a MongoDB query filter can compare against. -/
inductive MVal where
  | str : String → MVal
  | bool : Bool → MVal
deriving DecidableEq

/-- Field lookup on a stored message document: the strict schema means a
document has exactly the schema paths, so any other key is absent. -/
def msgField (m : MsgDoc) : String → Option MVal
  | "_id" => some (.str m.msgId)
  | "senderId" => some (.str m.senderId)
  | "receiverId" => some (.str m.receiverId)
  | "text" => m.text.map .str
  | "image" => m.image.map .str
  | "seen" => some (.bool m.seen)
  | _ => none

/-- A MongoDB equality filter matches a document when every filter key is
present on the document with the given value. -/
def matchesFilter (m : MsgDoc) (filter : List (String × MVal)) : Bool :=
  filter.all (fun kv => msgField m kv.1 = some kv.2)

/-- `Message.countDocuments(filter)` over the collection. -/
def countDocuments (db : List MsgDoc) (filter : List (String × MVal)) : Nat :=
  (db.filter (fun m => matchesFilter m filter)).length

/-- `Message.findById(msgId)` over the collection. -/
def findMsgById (db : List MsgDoc) (msgId : String) : Option MsgDoc :=
  db.find? (fun m => m.msgId = msgId)

/-- `getUsersForSidebar` of `backend/controllers/message-controllers.js`
(lines 7–36): fetch every user other than the caller, and for each such
user `u` run `Message.countDocuments({ sender: u._id, receiver: userId,
seen: false })` — note the filter keys `sender`/`receiver`, which are not
paths of the message schema (`senderId`/`receiverId`) — collecting the
counts keyed by `u._id`; respond 200 with the users and the counts. -/
def getUsersForSidebar (users : List StoredUser) (msgs : List MsgDoc)
    (callerId : String) : Nat × List StoredUser × List (String × Nat) :=
  let filteredUsers := users.filter (fun u => u.id ≠ callerId)
  let unseenMsgs := filteredUsers.map (fun u =>
    (u.id, countDocuments msgs
      [("sender", .str u.id), ("receiver", .str callerId),
       ("seen", .bool false)]))
  (200, filteredUsers, unseenMsgs)

/-- The number of stored messages from `senderId` to `receiverId` that are
unseen, queried by the actual schema paths — the count the sidebar is
documented to report. -/
def unseenCountIntended (msgs : List MsgDoc) (senderId receiverId : String) : Nat :=
  countDocuments msgs
    [("senderId", .str senderId), ("receiverId", .str receiverId),
     ("seen", .bool false)]

/-- `Message.findByIdAndUpdate(msgId, { seen: true })`: a no-op when no
document has the id. -/
def setMsgSeen (db : List MsgDoc) (msgId : String) : List MsgDoc :=
  db.map (fun m => if m.msgId = msgId then { m with seen := true } else m)

/-- The request context reaching `makeMsgSeen` after `verifyToken`: the
authenticated caller (`req.user`) and the `msgId` route parameter. -/
structure SeenReq where
  user : StoredUser
  msgId : String
deriving DecidableEq

/-- `makeMsgSeen` of `backend/controllers/message-controllers.js`
(lines 67–77), as mounted at `PUT /seen/:msgId` behind `verifyToken`: set
`seen: true` on the document with id `req.params.msgId` and respond 200.
The handler reads nothing from `req.user`. -/
def makeMsgSeen (db : List MsgDoc) (req : SeenReq) : List MsgDoc × Nat :=
  let msgId := req.msgId
  (setMsgSeen db msgId, 200)

/-- `cloudinary.uploader.upload(image).secure_url`, idealised as a tagging
of the uploaded data. -/
def cloudinaryUpload (image : String) : String :=
  "https://res.cloudinary.com/" ++ image

/-- The request reaching `sendMessage`: the authenticated sender
(`req.user._id`), the `userId` route parameter (receiver) and the optional
`text` and `image` body fields. -/
structure SendReq where
  senderId : String
  receiverId : String
  text : Option String
  image : Option String
deriving DecidableEq

/-- Outcome of `sendMessage`: the message collection afterwards, the HTTP
status and the persisted message returned in the body (if any). -/
structure SendResult where
  db : List MsgDoc
  status : Nat
  newMessage : Option MsgDoc
deriving DecidableEq

/-- `sendMessage` of `backend/controllers/message-controllers.js`
(lines 80–109): `imageUrl` starts as `""`; when `image` is truthy it is
uploaded and `imageUrl` becomes the secure URL; a new message
`{ senderId, receiverId, text, image: imageUrl }` is saved (a `text` of
`undefined` leaves the path absent; `image` is always assigned, so the
stored `image` is present, possibly `""`; `seen` defaults to false) and
the response is 201 with the new message.  There is no validation that
`text` or `image` is present. -/
def sendMessage (db : List MsgDoc) (req : SendReq) (newId : String) :
    SendResult :=
  let imageUrl := if truthy req.image then cloudinaryUpload (req.image.getD "") else ""
  let newMessage : MsgDoc :=
    { msgId := newId
      senderId := req.senderId
      receiverId := req.receiverId
      text := req.text
      image := some imageUrl
      seen := false }
  ⟨db ++ [newMessage], 201, some newMessage⟩

/-! ## Presence map (`backend/server.js`) -/

/-- The `userSocketMap` (`new Map()`, key: userId, value: socketId),
embedded as an association list in insertion order: `Map.set` overwrites
the value of an existing key in place and appends a fresh key at the end,
`Map.delete` removes the key, `Map.keys()` lists keys in that order. -/
def mapSet : List (String × String) → String → String → List (String × String)
  | [], k, v => [(k, v)]
  | p :: rest, k, v => if p.1 = k then (k, v) :: rest else p :: mapSet rest k v

/-- `userSocketMap.delete(k)`. -/
def mapDelete (m : List (String × String)) (k : String) :
    List (String × String) :=
  m.filter (fun p => p.1 ≠ k)

/-- `Array.from(userSocketMap.keys())`. -/
def mapKeys (m : List (String × String)) : List String :=
  m.map (fun p => p.1)

/-- `userSocketMap.get(k)`. -/
def mapGet (m : List (String × String)) (k : String) : Option String :=
  (m.find? (fun p => p.1 = k)).map (fun p => p.2)

/-- The `io.on("connection")` handler of `backend/server.js` (lines 34–53):
with `userId = socket.userId` (set by the socket auth middleware), if
`userId` is truthy set `userSocketMap[userId] = socket.id`, then emit
`getOnlineUsers` to all connections with the full key array.  Returns the
map afterwards and the broadcast array. -/
def onConnect (m : List (String × String)) (userId socketId : String) :
    List (String × String) × List String :=
  let m2 := if userId ≠ "" then mapSet m userId socketId else m
  (m2, mapKeys m2)

/-- The `socket.on("disconnect")` handler of `backend/server.js`
(lines 45–52): if the connection's `userId` is truthy, delete
`userSocketMap[userId]` — keyed by the user id captured at connection
time, not by the socket id — then emit `getOnlineUsers` with the full key
array. -/
def onDisconnect (m : List (String × String)) (userId : String) :
    List (String × String) × List String :=
  let m2 := if userId ≠ "" then mapDelete m userId else m
  (m2, mapKeys m2)

/-! ## HTTP authentication middleware (`backend/middlewares/auth.js`) -/

/-- The authorization header after `split(" ")`: the scheme and the part at
index 1 (`none` when the header has no second part). -/
structure AuthHeader where
  scheme : String
  token : Option Jwt
deriving DecidableEq

/-- An HTTP request as seen by the middleware: the `authorization` header,
`none` when absent. -/
structure HttpReq where
  authorization : Option AuthHeader
deriving DecidableEq

/-- Outcome of the middleware: an immediate response, or `next()` with the
resolved user attached to `req.user`. -/
inductive AuthOutcome where
  | respond : Nat → String → AuthOutcome
  | proceed : StoredUser → AuthOutcome
deriving DecidableEq

/-- The `try` body shared by both revisions of `verifyToken`, minus the
header read: given the extracted bearer token, verify it against
`JWT_SECRET_KEY` (which can throw), look the user up by the decoded id, and
either respond 401 or proceed with the user attached. -/
def verifyTokenCore (env : Env) (db : List StoredUser) (now : Nat)
    (token : Option Jwt) (noTokenMsg userNotFoundMsg : String) :
    Except JsError AuthOutcome :=
  match token with
  | none => .ok (.respond 401 noTokenMsg)
  | some tok => do
    let decodedId ← jwtVerifyE tok env.jwtSecretKey now
    match findById db decodedId with
    | none => pure (.respond 401 userNotFoundMsg)
    | some user => pure (.proceed user)

/-- `verifyToken` of the revision in `src/unnamed/part_004` (lines 4–35):
`const authHeader = req.headers?.authorization; const token =
authHeader.split(" ")[1];` — when the authorization header is absent,
`authHeader` is `undefined` and `.split` throws a `TypeError`, so control
never reaches the 401 "No token provided" branch; the `catch` maps
`JsonWebTokenError` and `TokenExpiredError` to 401 and every other error —
including that `TypeError` — to 500. -/
def verifyTokenP4 (env : Env) (db : List StoredUser) (now : Nat)
    (req : HttpReq) : AuthOutcome :=
  let body : Except JsError AuthOutcome := do
    let token ← match req.authorization with
      | none => throw JsError.typeError
      | some h => pure h.token
    verifyTokenCore env db now token "Unauthorized - No token provided"
      "Unauthorized - User not found"
  match body with
  | .ok r => r
  | .error .jsonWebTokenError => .respond 401 "Unauthorized - Invalid token"
  | .error .tokenExpiredError => .respond 401 "Unauthorized - Token expired"
  | .error _ => .respond 500 "Internal server error"

/-- `verifyToken` of the second revision in `src/unnamed/part_003`
(lines 27–52): `const token = req.headers?.authorization?.split(" ")[1];`
— optional chaining, so an absent header yields an undefined token and the
401 "Access Token required" response; the `catch` maps
`TokenExpiredError` and `JsonWebTokenError` to 401 and anything else to
500. -/
def verifyTokenP3 (env : Env) (db : List StoredUser) (now : Nat)
    (req : HttpReq) : AuthOutcome :=
  let token : Option Jwt := req.authorization.bind (fun h => h.token)
  match verifyTokenCore env db now token "Access Token required"
      "User not found" with
  | .ok r => r
  | .error .tokenExpiredError => .respond 401 "Token expired"
  | .error .jsonWebTokenError => .respond 401 "Invalid token"
  | .error _ => .respond 500 "Internal server error"

/-! ## Concrete values used by the witnesses -/

/-- A concrete environment whose two signing secrets differ. -/
def envW : Env := ⟨"access-secret", "refresh-secret", 900, 604800⟩

/-- A concrete persisted refresh token for user `u1`, issued at time 0 and
expiring at time 100, signed with the refresh secret of `envW`. -/
def rtW : Jwt := jwtSign "u1" "refresh-secret" 0 100

/-- A concrete user holding `rtW` as the persisted refresh token. -/
def aliceW : StoredUser :=
  ⟨"u1", "Alice", "alice@chat.io", bcryptHash "password1", "",
    "Hey there! I am using Chatspace.", some rtW⟩

/-- A second concrete user with no active refresh token. -/
def bobW : StoredUser :=
  ⟨"u2", "Bob", "bob@chat.io", bcryptHash "password2", "",
    "Hey there! I am using Chatspace.", none⟩

/-- A concrete user collection. -/
def dbW : List StoredUser := [aliceW, bobW]

/-- A third concrete user, unrelated to the message `msgW`. -/
def carolW : StoredUser :=
  ⟨"u3", "Carol", "carol@chat.io", bcryptHash "password3", "",
    "Hey there! I am using Chatspace.", none⟩

/-- A concrete unseen message from `u2` to `u1`. -/
def msgW : MsgDoc := ⟨"m1", "u2", "u1", some "hi", none, false⟩

/-- A concrete message collection. -/
def msgsW : List MsgDoc := [msgW]

/-- A concrete valid signup request. -/
def reqW : SignupReq :=
  ⟨some "Dora", some "dora@chat.io", some "password4", none, none⟩

/-! ## Helper lemmas -/

/-- Looking a user up after `findByIdAndUpdate(uid, { refreshToken: t })`
returns the user with the token overwritten. -/
theorem findById_updateRefreshToken (db : List StoredUser) (uid : String)
    (t : Option Jwt) :
    findById (updateRefreshToken db uid t) uid =
      (findById db uid).map (fun u => { u with refreshToken := t }) := by
  unfold findById updateRefreshToken
  induction db with
  | nil => rfl
  | cons a l ih =>
    by_cases h : a.id = uid
    · simp [List.find?_cons, h]
    · simpa [List.find?_cons, h] using ih

/-- Looking a message up after `findByIdAndUpdate(msgId, { seen: true })`
returns the message with the seen flag set. -/
theorem findMsgById_setMsgSeen (db : List MsgDoc) (msgId : String) :
    findMsgById (setMsgSeen db msgId) msgId =
      (findMsgById db msgId).map (fun m => { m with seen := true }) := by
  unfold findMsgById setMsgSeen
  induction db with
  | nil => rfl
  | cons a l ih =>
    by_cases h : a.msgId = msgId
    · simp [List.find?_cons, h]
    · simpa [List.find?_cons, h] using ih

/-- Setting the seen flag twice equals setting it once. -/
theorem setMsgSeen_idem (db : List MsgDoc) (msgId : String) :
    setMsgSeen (setMsgSeen db msgId) msgId = setMsgSeen db msgId := by
  unfold setMsgSeen
  induction db with
  | nil => rfl
  | cons a l ih =>
    by_cases h : a.msgId = msgId
    · simpa [h] using ih
    · simpa [h] using ih

/-- A user found by `findById` has the id looked up. -/
theorem findById_id (db : List StoredUser) (uid : String) (u : StoredUser)
    (h : findById db uid = some u) : u.id = uid := by
  have := List.find?_some h
  simpa using this

/-- After `Map.set(k, v)` the key `k` maps to `v`. -/
theorem mapGet_mapSet_self (m : List (String × String)) (k v : String) :
    mapGet (mapSet m k v) k = some v := by
  induction m with
  | nil => simp [mapSet, mapGet]
  | cons p rest ih =>
    by_cases h : p.1 = k
    · simp [mapSet, mapGet, h]
    · simpa [mapSet, mapGet, List.find?_cons, h] using ih

/-- After `Map.set(k, v)` the key `k` is among the keys. -/
theorem mem_keys_mapSet_self (m : List (String × String)) (k v : String) :
    k ∈ mapKeys (mapSet m k v) := by
  induction m with
  | nil => simp [mapSet, mapKeys]
  | cons p rest ih =>
    by_cases h : p.1 = k
    · simp [mapSet, mapKeys, h]
    · simp only [mapSet, h, if_false, mapKeys, List.map_cons, List.mem_cons]
      exact Or.inr ih

/-- After `Map.delete(k)` the key `k` is gone from the keys. -/
theorem not_mem_keys_mapDelete (m : List (String × String)) (k : String) :
    k ∉ mapKeys (mapDelete m k) := by
  unfold mapKeys mapDelete
  simp only [List.mem_map, List.mem_filter]
  rintro ⟨p, ⟨-, hne⟩, hk⟩
  simp at hne
  exact hne hk

/-- The entry for `k` is gone after `Map.delete(k)`. -/
theorem mapGet_mapDelete_self (m : List (String × String)) (k : String) :
    mapGet (mapDelete m k) k = none := by
  unfold mapGet mapDelete
  rw [List.find?_eq_none.mpr]
  · rfl
  · intro p hp
    have := (List.mem_filter.mp hp).2
    simpa using this

/-- Keys different from the deleted one survive `Map.delete(k)`. -/
theorem mem_keys_mapDelete_of_ne (m : List (String × String)) (a k : String)
    (hne : a ≠ k) (hmem : a ∈ mapKeys m) : a ∈ mapKeys (mapDelete m k) := by
  unfold mapKeys at hmem ⊢
  rcases List.mem_map.mp hmem with ⟨p, hp, hpa⟩
  refine List.mem_map.mpr ⟨p, List.mem_filter.mpr ⟨hp, ?_⟩, hpa⟩
  simpa [hpa] using hne

/-- Successful verification decodes the token id and certifies the secret
and the expiry bound. -/
theorem jwtVerify_some (tok : Jwt) (secret : String) (now : Nat)
    (uid : String) (h : jwtVerify tok secret now = some uid) :
    uid = tok.id ∧ tok.secret = secret ∧ now < tok.exp := by
  unfold jwtVerify jwtVerifyE at h
  by_cases h1 : tok.secret ≠ secret
  · simp [h1, Except.toOption] at h
  · by_cases h2 : tok.exp ≤ now
    · simp [h1, h2, Except.toOption] at h
    · simp only [h1, if_false, h2, Except.toOption] at h
      refine ⟨?_, by simpa using h1, by omega⟩
      simpa using h.symm

/-! ## Claim theorems -/

/-- C6: when an authenticated identity connects, the presence map entry for
that identity is set to the new connection handle and the full key set of
the map is broadcast; when it disconnects, the entry is deleted and the key
set is broadcast again; hence, after two distinct identities connect and
the first disconnects, the broadcast array excludes the disconnected
identifier and still includes the other. -/
theorem presence_broadcast (m : List (String × String)) (u1 u2 s1 s2 : String)
    (h1 : u1 ≠ "") (h2 : u2 ≠ "") (hne : u1 ≠ u2) :
    (mapGet (onConnect m u1 s1).1 u1 = some s1 ∧
      (onConnect m u1 s1).2 = mapKeys (onConnect m u1 s1).1) ∧
    (mapGet (onDisconnect m u1).1 u1 = none ∧
      (onDisconnect m u1).2 = mapKeys (onDisconnect m u1).1) ∧
    (u1 ∉ (onDisconnect ((onConnect ((onConnect m u1 s1).1) u2 s2).1) u1).2 ∧
      u2 ∈ (onDisconnect ((onConnect ((onConnect m u1 s1).1) u2 s2).1) u1).2) := by
  refine ⟨⟨?_, rfl⟩, ⟨?_, rfl⟩, ?_, ?_⟩
  · simp only [onConnect, h1, ne_eq, not_false_iff, if_true]
    exact mapGet_mapSet_self m u1 s1
  · simp only [onDisconnect, h1, ne_eq, not_false_iff, if_true]
    exact mapGet_mapDelete_self m u1
  · simp only [onConnect, onDisconnect, h1, h2, ne_eq, not_false_iff, if_true]
    exact not_mem_keys_mapDelete _ u1
  · simp only [onConnect, onDisconnect, h1, h2, ne_eq, not_false_iff, if_true]
    exact mem_keys_mapDelete_of_ne _ u2 u1 (Ne.symm hne)
      (mem_keys_mapSet_self _ u2 s2)

/-- Witness for C6 at the empty map with identities `a`, `b` and handles
`s1`, `s2`. -/
theorem presence_broadcast_witness :
    (mapGet (onConnect [] "a" "s1").1 "a" = some "s1" ∧
      (onConnect [] "a" "s1").2 = mapKeys (onConnect [] "a" "s1").1) ∧
    (mapGet (onDisconnect [] "a").1 "a" = none ∧
      (onDisconnect [] "a").2 = mapKeys (onDisconnect [] "a").1) ∧
    ("a" ∉ (onDisconnect ((onConnect ((onConnect [] "a" "s1").1) "b" "s2").1) "a").2 ∧
      "b" ∈ (onDisconnect ((onConnect ((onConnect [] "a" "s1").1) "b" "s2").1) "a").2) :=
  presence_broadcast [] "a" "b" "s1" "s2" (by decide) (by decide) (by decide)

/-- C9: when the same identity opens a second connection, overwriting its
presence entry with the newer handle, and the first connection then
disconnects, the disconnect handler deletes the entry keyed by the user id
— not by connection handle — so the identity is removed from the map and
the broadcast excludes it even though the entry it deleted held the still
live second handle. -/
theorem disconnect_keyed_by_userId (u s1 s2 : String) (hu : u ≠ "")
    (_hs : s1 ≠ s2) :
    mapGet ((onConnect ((onConnect [] u s1).1) u s2).1) u = some s2 ∧
    mapGet ((onDisconnect ((onConnect ((onConnect [] u s1).1) u s2).1) u).1) u
      = none ∧
    u ∉ (onDisconnect ((onConnect ((onConnect [] u s1).1) u s2).1) u).2 := by
  refine ⟨?_, ?_, ?_⟩
  · simp only [onConnect, hu, ne_eq, not_false_iff, if_true]
    exact mapGet_mapSet_self _ u s2
  · simp only [onConnect, onDisconnect, hu, ne_eq, not_false_iff, if_true]
    exact mapGet_mapDelete_self _ u
  · simp only [onConnect, onDisconnect, hu, ne_eq, not_false_iff, if_true]
    exact not_mem_keys_mapDelete _ u

/-- Witness for C9 at identity `a` with handles `s1` and `s2`. -/
theorem disconnect_keyed_by_userId_witness :
    mapGet ((onConnect ((onConnect [] "a" "s1").1) "a" "s2").1) "a" = some "s2" ∧
    mapGet ((onDisconnect ((onConnect ((onConnect [] "a" "s1").1) "a" "s2").1) "a").1) "a"
      = none ∧
    "a" ∉ (onDisconnect ((onConnect ((onConnect [] "a" "s1").1) "a" "s2").1) "a").2 :=
  disconnect_keyed_by_userId "a" "s1" "s2" (by decide) (by decide)

/-- C7: marking a message seen is idempotent — for every message id present
in the store, calling the mark-seen operation twice in succession returns
200 both times, the seen flag of that message is true after each call, and
the second call leaves the store unchanged. -/
theorem makeMsgSeen_idempotent (db : List MsgDoc) (req : SeenReq)
    (m : MsgDoc) (hm : findMsgById db req.msgId = some m) :
    (makeMsgSeen db req).2 = 200 ∧
    (makeMsgSeen (makeMsgSeen db req).1 req).2 = 200 ∧
    findMsgById (makeMsgSeen db req).1 req.msgId
      = some { m with seen := true } ∧
    findMsgById (makeMsgSeen (makeMsgSeen db req).1 req).1 req.msgId
      = some { m with seen := true } ∧
    (makeMsgSeen (makeMsgSeen db req).1 req).1 = (makeMsgSeen db req).1 := by
  refine ⟨rfl, rfl, ?_, ?_, ?_⟩
  · rw [makeMsgSeen, findMsgById_setMsgSeen, hm]
    rfl
  · rw [makeMsgSeen, makeMsgSeen, setMsgSeen_idem, findMsgById_setMsgSeen, hm]
    rfl
  · rw [makeMsgSeen, makeMsgSeen, setMsgSeen_idem]

/-- Witness for C7 at the one-message store `msgsW` and message id `m1`. -/
theorem makeMsgSeen_idempotent_witness :
    findMsgById msgsW (SeenReq.mk bobW "m1").msgId = some msgW ∧
    ((makeMsgSeen msgsW ⟨bobW, "m1"⟩).2 = 200 ∧
      (makeMsgSeen (makeMsgSeen msgsW ⟨bobW, "m1"⟩).1 ⟨bobW, "m1"⟩).2 = 200 ∧
      findMsgById (makeMsgSeen msgsW ⟨bobW, "m1"⟩).1 (SeenReq.mk bobW "m1").msgId
        = some { msgW with seen := true } ∧
      findMsgById (makeMsgSeen (makeMsgSeen msgsW ⟨bobW, "m1"⟩).1 ⟨bobW, "m1"⟩).1
          (SeenReq.mk bobW "m1").msgId
        = some { msgW with seen := true } ∧
      (makeMsgSeen (makeMsgSeen msgsW ⟨bobW, "m1"⟩).1 ⟨bobW, "m1"⟩).1
        = (makeMsgSeen msgsW ⟨bobW, "m1"⟩).1) :=
  ⟨by decide, makeMsgSeen_idempotent msgsW ⟨bobW, "m1"⟩ msgW (by decide)⟩

/-- C10: the mark-seen operation performs no ownership check — its outcome
depends only on the message id, never on the authenticated caller, and for
an existing message it sets the seen flag and returns 200 even when the
caller is neither the sender nor the receiver of that message. -/
theorem makeMsgSeen_no_ownership_check (db : List MsgDoc) (r1 r2 : SeenReq)
    (hid : r1.msgId = r2.msgId) :
    makeMsgSeen db r1 = makeMsgSeen db r2 ∧
    (∀ m, findMsgById db r1.msgId = some m →
      r1.user.id ≠ m.senderId → r1.user.id ≠ m.receiverId →
      (makeMsgSeen db r1).2 = 200 ∧
      findMsgById (makeMsgSeen db r1).1 r1.msgId
        = some { m with seen := true }) := by
  constructor
  · rw [makeMsgSeen, makeMsgSeen, hid]
  · intro m hm _ _
    refine ⟨rfl, ?_⟩
    rw [makeMsgSeen, findMsgById_setMsgSeen, hm]
    rfl

/-- Witness for C10: `bobW` (id `u2`) and an unrelated caller `carolW`
issue mark-seen for the same message id and get identical outcomes; the
unrelated caller still flips the seen flag of a message between `u2` and
`u1`. -/
theorem makeMsgSeen_no_ownership_check_witness :
    (SeenReq.mk carolW "m1").msgId = (SeenReq.mk bobW "m1").msgId ∧
    (makeMsgSeen msgsW ⟨carolW, "m1"⟩ = makeMsgSeen msgsW ⟨bobW, "m1"⟩ ∧
      (∀ m, findMsgById msgsW (SeenReq.mk carolW "m1").msgId = some m →
        (SeenReq.mk carolW "m1").user.id ≠ m.senderId →
        (SeenReq.mk carolW "m1").user.id ≠ m.receiverId →
        (makeMsgSeen msgsW ⟨carolW, "m1"⟩).2 = 200 ∧
        findMsgById (makeMsgSeen msgsW ⟨carolW, "m1"⟩).1
            (SeenReq.mk carolW "m1").msgId
          = some { m with seen := true })) :=
  ⟨by decide, makeMsgSeen_no_ownership_check msgsW ⟨carolW, "m1"⟩ ⟨bobW, "m1"⟩ (by decide)⟩

/-- C2 (failing input): a send-message request carrying neither text nor
image is not rejected — `sendMessage` performs no presence validation, so
it persists a message with an absent `text` and an empty `image` and
responds 201, where the claim (and the repository documentation of this
controller, which shows the check `!text && !imageUrl` answering 400)
requires a 400 with no record created. -/
theorem sendMessage_no_validation :
    truthy (SendReq.mk "u1" "u2" none none).text = false ∧
    truthy (SendReq.mk "u1" "u2" none none).image = false ∧
    sendMessage [] ⟨"u1", "u2", none, none⟩ "m9" =
      ⟨[⟨"m9", "u1", "u2", none, some "", false⟩], 201,
        some ⟨"m9", "u1", "u2", none, some "", false⟩⟩ := by
  decide

/-- C3 (failing input): with one stored unseen message from `u2` to `u1`,
the sidebar handler reports an unseen count of 0 for `u2` to caller `u1`
— its `countDocuments` filter uses the keys `sender` and `receiver`, which
are not paths of the message schema, so it matches no document — while the
count by the actual schema paths (`senderId`, `receiverId`), which the
claim describes, is 1. -/
theorem sidebar_unseen_count_zero :
    (getUsersForSidebar dbW msgsW "u1").1 = 200 ∧
    (getUsersForSidebar dbW msgsW "u1").2.2 = [("u2", 0)] ∧
    unseenCountIntended msgsW "u2" "u1" = 1 := by
  decide

/-- C5 (failing input): in the `src/unnamed/part_004` revision of the
session middleware, a request with no authorization header is answered
with 500, not a 401-class error — `authHeader.split` throws a `TypeError`
that the catch block does not map to 401 — while the other failure cases
(bad signature, expired token, unknown user) do answer 401, the valid case
proceeds, and the `src/unnamed/part_003` revision answers 401 even for the
missing header. -/
theorem verifyToken_missing_header_500 :
    verifyTokenP4 envW dbW 1 ⟨none⟩
      = .respond 500 "Internal server error" ∧
    verifyTokenP3 envW dbW 1 ⟨none⟩
      = .respond 401 "Access Token required" ∧
    verifyTokenP4 envW dbW 1 ⟨some ⟨"Bearer", some (jwtSign "u1" "wrong" 0 100)⟩⟩
      = .respond 401 "Unauthorized - Invalid token" ∧
    verifyTokenP4 envW dbW 50 ⟨some ⟨"Bearer", some (jwtSign "u1" "access-secret" 0 10)⟩⟩
      = .respond 401 "Unauthorized - Token expired" ∧
    verifyTokenP4 envW dbW 1 ⟨some ⟨"Bearer", some (jwtSign "ghost" "access-secret" 0 100)⟩⟩
      = .respond 401 "Unauthorized - User not found" ∧
    verifyTokenP4 envW dbW 1 ⟨some ⟨"Bearer", some (jwtSign "u1" "access-secret" 0 100)⟩⟩
      = .proceed aliceW := by
  decide

/-- C4 (counterexample): in the earlier revision of `backend/lib/util.js`
(lines 1–11 of the concatenated file, cited by the claim), refresh tokens
are signed with `JWT_SECRET_KEY` — the very secret used for access tokens
— so the distinct-secret premise fails there, and an access token does
pass signature verification against the secret with which that revision
signs refresh tokens. -/
theorem refresh_secret_not_distinct_v1 :
    (generateRefreshTokenV1 envW "u1" 0).secret
      = (generateTokenV1 envW "u1" 0).secret ∧
    jwtVerify (generateTokenV1 envW "u1" 0)
      (generateRefreshTokenV1 envW "u1" 0).secret 1 = some "u1" := by
  decide

/-- C4 (amended): in the current revision of `backend/lib/util.js` — the
one whose signing key matches the verification key used by the refresh
endpoint — refresh tokens are signed with `JWT_REFRESH_SECRET_KEY`;
whenever the two configured secrets differ, a token issued by the
access-token issuer never passes the refresh verification, and presenting
an access token as the refresh cookie always yields 401 with the user
collection unchanged. -/
theorem access_token_never_refreshes (env : Env) (id : String)
    (now t : Nat) (h : env.jwtSecretKey ≠ env.jwtRefreshSecretKey) :
    (generateRefreshToken env id now).secret
      ≠ (generateToken env id now).secret ∧
    jwtVerify (generateToken env id now) env.jwtRefreshSecretKey t = none ∧
    ∀ db, refreshTokenEndpoint env db (some (generateToken env id now)) t
      = ⟨db, 401, none, none⟩ := by
  refine ⟨?_, ?_, ?_⟩
  · simpa [generateRefreshToken, generateToken, jwtSign] using (Ne.symm h)
  · simp [jwtVerify, jwtVerifyE, generateToken, jwtSign, h, Except.toOption]
  · intro db
    simp [refreshTokenEndpoint, jwtVerify, jwtVerifyE, generateToken, jwtSign,
      h, Except.toOption]

/-- Witness for C4 (amended) at the concrete environment `envW`, whose two
secrets differ. -/
theorem access_token_never_refreshes_witness :
    envW.jwtSecretKey ≠ envW.jwtRefreshSecretKey ∧
    ((generateRefreshToken envW "u1" 0).secret
        ≠ (generateToken envW "u1" 0).secret ∧
      jwtVerify (generateToken envW "u1" 0) envW.jwtRefreshSecretKey 1 = none ∧
      ∀ db, refreshTokenEndpoint envW db (some (generateToken envW "u1" 0)) 1
        = ⟨db, 401, none, none⟩) :=
  ⟨by decide, access_token_never_refreshes envW "u1" 0 1 (by decide)⟩

/-- C8: a successful signup responds 201 with `userData` carrying the full
stored record, including the password hash and the freshly persisted
refresh token, whereas a successful login strips the password field (and
carries no refresh-token field) before responding — signup discloses the
credential material login withholds. -/
theorem signup_discloses_credentials (env : Env) (db : List StoredUser)
    (req : SignupReq) (now : Nat) (newId : String)
    (hval : truthy req.fullName ∧ truthy req.email ∧ truthy req.password)
    (hnew : findByEmail db (req.email.getD "") = none) :
    (signup env db req now newId).status = 201 ∧
    (∃ ud, (signup env db req now newId).userData = some ud ∧
      ("password", RespVal.str (bcryptHash (req.password.getD ""))) ∈ ud ∧
      ("refreshToken", RespVal.jwtVal (generateRefreshToken env newId now)) ∈ ud) ∧
    (∀ email password db2 now2,
      (login env db2 email password now2).status = 200 →
      ∃ ud2, (login env db2 email password now2).userData = some ud2 ∧
        ∀ kv ∈ ud2, kv.1 ≠ "password" ∧ kv.1 ≠ "refreshToken") := by
  obtain ⟨h1, h2, h3⟩ := hval
  refine ⟨?_, ?_, ?_⟩
  · simp [signup, h1, h2, h3, hnew]
  · simp only [signup, h1, h2, h3, and_self, not_true_eq_false, if_false, hnew]
    refine ⟨_, rfl, ?_, ?_⟩ <;> simp [serializeFullUser]
  · intro email password db2 now2 hst
    unfold login at hst ⊢
    by_cases hv : truthy email ∧ truthy password
    · simp only [hv, and_self, not_true_eq_false, if_false]
      simp only [hv, and_self, not_true_eq_false, if_false] at hst
      cases hfe : findByEmail db2 (email.getD "") with
      | none => simp [hfe] at hst
      | some user =>
        simp only [hfe] at hst ⊢
        by_cases hpw : bcryptCompare (password.getD "") user.password
        · simp only [hpw, not_true_eq_false, if_false]
          refine ⟨_, rfl, ?_⟩
          intro kv hkv
          have hfilt := List.of_mem_filter hkv
          have hmem := List.mem_of_mem_filter hkv
          simp only [toObjectWithPassword, List.mem_cons,
            List.not_mem_nil, or_false] at hmem
          constructor
          · simpa using hfilt
          · rcases hmem with h | h | h | h | h | h <;> simp [h]
        · simp [hpw] at hst
    · simp [hv] at hst

/-- Witness for C8 at `envW`, an empty collection and the request `reqW`. -/
theorem signup_discloses_credentials_witness :
    (truthy reqW.fullName ∧ truthy reqW.email ∧ truthy reqW.password) ∧
    findByEmail [] (reqW.email.getD "") = none ∧
    ((signup envW [] reqW 0 "u4").status = 201 ∧
      (∃ ud, (signup envW [] reqW 0 "u4").userData = some ud ∧
        ("password", RespVal.str (bcryptHash (reqW.password.getD ""))) ∈ ud ∧
        ("refreshToken", RespVal.jwtVal (generateRefreshToken envW "u4" 0)) ∈ ud) ∧
      (∀ email password db2 now2,
        (login envW db2 email password now2).status = 200 →
        ∃ ud2, (login envW db2 email password now2).userData = some ud2 ∧
          ∀ kv ∈ ud2, kv.1 ≠ "password" ∧ kv.1 ≠ "refreshToken")) :=
  ⟨⟨by decide, by decide, by decide⟩, by decide,
    signup_discloses_credentials envW [] reqW 0 "u4"
      ⟨by decide, by decide, by decide⟩ (by decide)⟩

/-- C1: the refresh endpoint succeeds — rotating to a new persisted refresh
token and answering 200 with a new access token — only if the presented
cookie passes verification and equals the token persisted on the user
record; on a verified token that mismatches the persisted value it answers
401 and nulls the stored token; and after a successful rotation a second
refresh with the same, now stale, cookie never succeeds. -/
theorem refresh_rotation_sound (env : Env) (db : List StoredUser) (rt : Jwt)
    (now later : Nat) :
    ((refreshTokenEndpoint env db (some rt) now).status = 200 →
      ∃ u, findById db rt.id = some u ∧
        jwtVerify rt env.jwtRefreshSecretKey now = some u.id ∧
        u.refreshToken = some rt ∧
        (refreshTokenEndpoint env db (some rt) now).db
          = updateRefreshToken db u.id
              (some (generateRefreshToken env u.id now)) ∧
        (refreshTokenEndpoint env db (some rt) now).token
          = some (generateToken env u.id now) ∧
        (refreshTokenEndpoint env db (some rt) now).cookie
          = some (generateRefreshToken env u.id now)) ∧
    (∀ uid u, jwtVerify rt env.jwtRefreshSecretKey now = some uid →
      findById db uid = some u → u.refreshToken ≠ some rt →
      (refreshTokenEndpoint env db (some rt) now).status = 401 ∧
      findById (refreshTokenEndpoint env db (some rt) now).db uid
        = some { u with refreshToken := none }) ∧
    ((refreshTokenEndpoint env db (some rt) now).status = 200 →
      rt.iat ≠ now →
      (refreshTokenEndpoint env (refreshTokenEndpoint env db (some rt) now).db
        (some rt) later).status = 401) := by
  have hsucc : (refreshTokenEndpoint env db (some rt) now).status = 200 →
      ∃ u, findById db rt.id = some u ∧
        jwtVerify rt env.jwtRefreshSecretKey now = some u.id ∧
        u.refreshToken = some rt ∧
        (refreshTokenEndpoint env db (some rt) now).db
          = updateRefreshToken db u.id
              (some (generateRefreshToken env u.id now)) ∧
        (refreshTokenEndpoint env db (some rt) now).token
          = some (generateToken env u.id now) ∧
        (refreshTokenEndpoint env db (some rt) now).cookie
          = some (generateRefreshToken env u.id now) := by
    intro h200
    rcases hv : jwtVerify rt env.jwtRefreshSecretKey now with - | uid
    · simp [refreshTokenEndpoint, hv] at h200
    · obtain ⟨huid, -, -⟩ := jwtVerify_some rt _ now uid hv
      rcases hf : findById db uid with - | user
      · simp [refreshTokenEndpoint, hv, hf] at h200
      · have hui : user.id = uid := findById_id db uid user hf
        by_cases hrt : user.refreshToken = some rt
        · refine ⟨user, ?_, ?_, hrt, ?_, ?_, ?_⟩
          · rw [← huid]; exact hf
          · rw [hui]
          · simp [refreshTokenEndpoint, hv, hf, hrt]
          · simp [refreshTokenEndpoint, hv, hf, hrt]
          · simp [refreshTokenEndpoint, hv, hf, hrt]
        · simp [refreshTokenEndpoint, hv, hf, hrt] at h200
  refine ⟨hsucc, ?_, ?_⟩
  · intro uid u hv hf hne
    constructor
    · simp [refreshTokenEndpoint, hv, hf, hne]
    · have hr : (refreshTokenEndpoint env db (some rt) now).db
          = updateRefreshToken db uid none := by
        simp [refreshTokenEndpoint, hv, hf, hne]
      rw [hr, findById_updateRefreshToken, hf]
      rfl
  · intro h200 hiat
    obtain ⟨u, hf, hv, -, hdb, -, -⟩ := hsucc h200
    obtain ⟨huid, -, -⟩ := jwtVerify_some rt _ now u.id hv
    rw [hdb]
    have hne2 : generateRefreshToken env u.id now ≠ rt := by
      intro heq
      exact hiat (by rw [← heq]; rfl)
    rcases hv2 : jwtVerify rt env.jwtRefreshSecretKey later with - | uid2
    · simp [refreshTokenEndpoint, hv2]
    · obtain ⟨huid2, -, -⟩ := jwtVerify_some rt _ later uid2 hv2
      have heq : uid2 = u.id := by rw [huid2, huid]
      have hf2 : findById
          (updateRefreshToken db u.id (some (generateRefreshToken env u.id now)))
          uid2
          = some { u with refreshToken := some (generateRefreshToken env u.id now) } := by
        rw [heq, findById_updateRefreshToken]
        rw [← huid] at hf
        rw [hf]
        rfl
      simp [refreshTokenEndpoint, hv2, hf2, hne2]

/-- Witness for C1: at `envW` and `dbW`, presenting the persisted cookie
`rtW` at time 5 succeeds, and replaying the same stale cookie against the
rotated store at time 6 fails with 401. -/
theorem refresh_rotation_sound_witness :
    (refreshTokenEndpoint envW dbW (some rtW) 5).status = 200 ∧
    rtW.iat ≠ 5 ∧
    (refreshTokenEndpoint envW (refreshTokenEndpoint envW dbW (some rtW) 5).db
      (some rtW) 6).status = 401 :=
  ⟨by decide, by decide,
    (refresh_rotation_sound envW dbW rtW 5 6).2.2 (by decide) (by decide)⟩

end Chatspace
